import Mathlib

/-!
Verification of an automated market-signal-and-execution engine.

Shallow embedding of the Python sources:
- `trade/trade_manager.py`   (order execution, position book, trailing stops)
- `strategies/scalping_strategy.py` (MACD/RSI evaluator state machine)
- `strategies/strategy_manager.py`  (signal dispatch, position-cap gate)
- `mt5_service/data_sync.py` (per-(instrument,timeframe) polling sync)

Prices and monetary quantities are modelled as rationals; times as integers
(epoch seconds).  Venue calls and database operations that can fail at run
time are modelled by explicit oracle flags in an environment record, so that
a single definition covers every success/failure interleaving of one call.
-/

namespace Engine

/-- Position side, `'BUY'`/`'SELL'` strings in `trade_manager.py`. -/
inductive Side where
  | buy
  | sell
deriving DecidableEq, Repr

/-- One entry of the position book
(`TradeManager._open_positions[symbol][ticket]`, built in `_sync_positions`).
The nested dict keyed by symbol then ticket is flattened to a list of
positions; `positionsFor` recovers the per-symbol grouping. -/
structure Position where
  ticket : Nat
  symbol : String
  side : Side
  volume : ℚ
  open_price : ℚ
  current_price : ℚ
  sl : ℚ
  tp : ℚ
deriving DecidableEq, Repr

/-- The positions tracked for one symbol
(`self._open_positions[signal.symbol].values()`). -/
def positionsFor (symbol : String) (book : List Position) : List Position :=
  book.filter (fun p => p.symbol == symbol)

/-- `mt5.symbol_info(symbol)` fields used by the trade manager. -/
structure SymbolInfo where
  ask : ℚ
  bid : ℚ
  point : ℚ
  trade_tick_value : ℚ
  trade_tick_size : ℚ
  volume_step : ℚ
  volume_min : ℚ
  volume_max : ℚ
deriving DecidableEq, Repr

/-- `mt5.account_info()` fields relevant to sizing: the account carries both a
balance and an equity figure (they differ whenever open positions have
unrealized profit or loss). -/
structure AccountInfo where
  balance : ℚ
  equity : ℚ
deriving DecidableEq, Repr

/-! ## Trailing stops (`TradeManager.update_trailing_stops`, lines 424-506) -/

/-- New stop-loss computed for one position (lines 461-476): for a BUY the
stop moves to `current_price - trailing_distance` once
`current_price > current_sl + trailing_distance`; for a SELL symmetrically. -/
def newStopLoss (side : Side) (current_price current_sl trailing_distance : ℚ) : ℚ :=
  match side with
  | .buy =>
    if current_price > current_sl + trailing_distance then
      current_price - trailing_distance
    else current_sl
  | .sell =>
    if current_price < current_sl - trailing_distance then
      current_price + trailing_distance
    else current_sl

/-- Per-position trailing update: positions with no stop (`sl == 0.0`) are
skipped (line 442), all others go through `newStopLoss`. -/
def trailingStep (p : Position) (trailing_distance : ℚ) : ℚ :=
  if p.sl = 0 then p.sl
  else newStopLoss p.side p.current_price p.sl trailing_distance

/-- `trailing_distance = 100 * symbol_info.point * atr_multiplier` (line 458). -/
def trailingDistance (point atr_multiplier : ℚ) : ℚ :=
  100 * point * atr_multiplier

/-! ## Position sizing (`TradeManager._execute_buy`, lines 161-201) -/

/-- Python's builtin `round`: round half to even (banker's rounding), used at
line 198 `round(volume_lots / lot_step)`. -/
def pyRound (q : ℚ) : ℤ :=
  if q - ⌊q⌋ < 1 / 2 then ⌊q⌋
  else if (1 : ℚ) / 2 < q - ⌊q⌋ then ⌊q⌋ + 1
  else if ⌊q⌋ % 2 = 0 then ⌊q⌋ else ⌊q⌋ + 1

/-- `risk_amount = balance * (risk_percent / 100.0)` (line 173).  Note the
code reads `account_info.balance` (line 166), not the account's equity. -/
def riskAmount (balance riskPercent : ℚ) : ℚ :=
  balance * (riskPercent / 100)

/-- The same quantity computed from `account_info` as the code does:
`balance = account_info.balance` (line 166) feeding line 173. -/
def riskAmountCode (acct : AccountInfo) (riskPercent : ℚ) : ℚ :=
  riskAmount acct.balance riskPercent

/-- Modelled from the spec: `risk_amount = account_equity × risk_percent/100`
(spec §4.5 and §8); written from the spec's words, for comparison with
`riskAmountCode`, which is what `_execute_buy` actually computes. -/
def riskAmountSpecEquity (acct : AccountInfo) (riskPercent : ℚ) : ℚ :=
  acct.equity * (riskPercent / 100)

/-- Lines 187-194: `stop_loss_distance = abs(price - signal.stop_loss)`;
`point_value = trade_tick_value / trade_tick_size`;
`stop_loss_points = stop_loss_distance / point`;
`money_per_point = risk_amount / stop_loss_points`;
`volume_lots = money_per_point / point_value` (value before lot-step
rounding). -/
def preRoundVolume (balance riskPercent price stop_loss : ℚ) (si : SymbolInfo) : ℚ :=
  (riskAmount balance riskPercent / (|price - stop_loss| / si.point)) /
    (si.trade_tick_value / si.trade_tick_size)

/-- Lines 197-198: `volume_lots = round(volume_lots / lot_step) * lot_step`. -/
def roundedVolume (balance riskPercent price stop_loss : ℚ) (si : SymbolInfo) : ℚ :=
  (pyRound (preRoundVolume balance riskPercent price stop_loss si / si.volume_step) : ℚ) *
    si.volume_step

/-- Line 201: `volume_lots = max(volume_min, min(volume_max, volume_lots))`. -/
def computeVolumeLots (balance riskPercent price stop_loss : ℚ) (si : SymbolInfo) : ℚ :=
  max si.volume_min (min si.volume_max (roundedVolume balance riskPercent price stop_loss si))

/-- Concrete venue trading rules for the worked sizing example: point size
1/10000, a stop 50 points away from the ask, tick value per tick size 1,
lot step 0.01, volume limits [0.01, 100]. -/
def exampleSymbolInfo : SymbolInfo :=
  { ask := 201 / 200, bid := 201 / 200, point := 1 / 10000,
    trade_tick_value := 1, trade_tick_size := 1,
    volume_step := 1 / 100, volume_min := 1 / 100, volume_max := 100 }

/-! ## Crossover detection (`ScalpingStrategy.evaluate`, lines 165-171) -/

/-- `macd_crosses_above = (macd_line[-2] <= macd_signal[-2]) and
(macd_line[-1] > macd_signal[-1])`. -/
def macdCrossesAbove (macdPrev sigPrev macdCur sigCur : ℚ) : Bool :=
  decide (macdPrev ≤ sigPrev) && decide (macdCur > sigCur)

/-- `macd_crosses_below = (macd_line[-2] >= macd_signal[-2]) and
(macd_line[-1] < macd_signal[-1])`. -/
def macdCrossesBelow (macdPrev sigPrev macdCur sigCur : ℚ) : Bool :=
  decide (macdPrev ≥ sigPrev) && decide (macdCur < sigCur)

/-! ## Evaluator state machine (`ScalpingStrategy.evaluate`, lines 92-474)

`last_signal_type` (initialized to `None`, line 86) is the evaluator's only
cross-call state.  One `evaluate` call is modelled by `evaluateStep`: the
indicator-derived booleans of that call (crossovers, fully-gated bullish and
bearish entry conditions, EMA ordering, history/spread gates) are inputs,
quantified over all values, which covers every possible bar series. -/

/-- `self.last_signal_type ∈ {None, "BUY", "SELL"}`. -/
inductive LastSig where
  | noSignal
  | buy
  | sell
deriving DecidableEq, Repr

/-- Direction of an emitted `Signal` (`"BUY"`, `"SELL"`, `"CLOSE"`). -/
inductive SigDir where
  | buySig
  | sellSig
  | closeSig
deriving DecidableEq, Repr

/-- Per-instance configuration fixed at construction: the `rapid_exit`
custom parameter (line 64) and whether `len(self.ema_values) >= 2`. -/
structure EvalConfig where
  rapid_exit : Bool
  ema_pair_configured : Bool
deriving DecidableEq, Repr

/-- The booleans one `evaluate` call computes from the bar window:
`len(bars) >= min_bars_needed` (line 114), the spread gate (line 128),
`bullish_signal` after all its AND-ed gates (lines 229-251),
`bearish_signal` (lines 338-360), the two crossover flags (lines 170-171)
and the EMA ordering used by rapid exit (lines 404, 442). -/
structure EvalInput where
  enough_bars : Bool
  spread_ok : Bool
  bullish : Bool
  bearish : Bool
  crosses_above : Bool
  crosses_below : Bool
  short_below_medium : Bool
  short_above_medium : Bool
deriving DecidableEq, Repr

/-- Exit test for an active BUY (lines 396-411): in rapid-exit mode, MACD
cross below or (with ≥2 EMAs) short EMA below medium; otherwise cross below
only. -/
def exitLongCond (cfg : EvalConfig) (i : EvalInput) : Bool :=
  if cfg.rapid_exit then
    i.crosses_below || (cfg.ema_pair_configured && i.short_below_medium)
  else i.crosses_below

/-- Exit test for an active SELL (lines 434-449), mirror of `exitLongCond`. -/
def exitShortCond (cfg : EvalConfig) (i : EvalInput) : Bool :=
  if cfg.rapid_exit then
    i.crosses_above || (cfg.ema_pair_configured && i.short_above_medium)
  else i.crosses_above

/-- One `evaluate` call: emitted signal (if any) and new `last_signal_type`.
Branch order follows the source: history gate, spread gate, BUY entry
(guarded by `last_signal_type != "BUY"`, line 254), SELL entry (line 363),
BUY exit (line 392), SELL exit (line 430). -/
def evaluateStep (cfg : EvalConfig) (st : LastSig) (i : EvalInput) :
    Option SigDir × LastSig :=
  if !i.enough_bars then (none, st)
  else if !i.spread_ok then (none, st)
  else if i.bullish && !(st == LastSig.buy) then (some SigDir.buySig, LastSig.buy)
  else if i.bearish && !(st == LastSig.sell) then (some SigDir.sellSig, LastSig.sell)
  else if st == LastSig.buy && exitLongCond cfg i then (some SigDir.closeSig, LastSig.noSignal)
  else if st == LastSig.sell && exitShortCond cfg i then (some SigDir.closeSig, LastSig.noSignal)
  else (none, st)

/-- The trace of signals emitted by a sequence of `evaluate` calls on one
strategy instance, threading `last_signal_type`. -/
def runSignals (cfg : EvalConfig) (st : LastSig) : List EvalInput → List SigDir
  | [] => []
  | i :: rest =>
    match evaluateStep cfg st i with
    | (some d, st') => d :: runSignals cfg st' rest
    | (none, st') => runSignals cfg st' rest

/-- Two adjacent emitted signals never repeat a direction: equal neighbours
are only allowed when they are CLOSE. -/
def flapOk (a b : SigDir) : Prop := a = b → a = SigDir.closeSig

/-! ## Data synchronization (`MT5DataSyncService`, `mt5_service/data_sync.py`)

One `(instrument, timeframe)` pair of `_sync_price_data` (lines 205-250) is
modelled per poll.  Run-time failure points are oracle flags in `PollEnv`:
`instOk`/`tfOk` say whether the instrument/timeframe rows exist in the
database (`_get_instrument_id`/`_get_timeframe_id` raise when absent, which
`_convert_mt5_bar_to_price_bar` catches, returning `None`); `convertOk`
covers the remaining conversion steps; `commitOk` is the upsert-and-commit
of `_store_new_bar` (on failure the session is rolled back and the exception
propagates to the per-pair handler, so the bar is not stored); `postOk` is
the pair of row lookups `_store_new_bar` performs after the commit (on
failure the committed upsert persists but the exception still propagates,
so the cursor is not advanced and no listener runs).  Listener exceptions
are caught one by one inside the notify loop (lines 297-308), so every
registered listener is always invoked when notification is reached. -/

/-- One stored price bar row (`PriceBar` for a fixed instrument/timeframe),
keyed by `time` (epoch seconds). -/
structure MBar where
  time : Int
  «open» : ℚ
  high : ℚ
  low : ℚ
  close : ℚ
  volume : ℚ
  spread : ℚ
deriving DecidableEq, Repr

/-- Upsert of `_store_new_bar` (lines 263-312): keyed lookup by timestamp;
if a row exists all fields are overwritten in place, otherwise the bar is
appended. -/
def upsertBar (db : List MBar) (b : MBar) : List MBar :=
  if db.any (fun x => x.time == b.time) then
    db.map (fun x => if x.time == b.time then b else x)
  else db ++ [b]

/-- Persistent and cursor state for one `(instrument, timeframe)` pair:
stored bars plus `self._last_sync_times[symbol][tf_name]`. -/
structure SyncSt where
  db : List MBar
  cursor : Int
deriving DecidableEq, Repr

/-- Environment of one poll: the venue's answers and the failure oracle. -/
structure PollEnv where
  venueLatest : Option MBar
  venuePrev : Option MBar
  prevOk : Bool
  instOk : Bool
  tfOk : Bool
  convertOk : Bool
  commitOk : Bool
  postOk : Bool
deriving DecidableEq, Repr

/-- `_update_previous_bar` (lines 430-485): re-fetch position-1 bar and
overwrite the matching stored row if it exists; never inserts; all its
failures are caught internally (rollback, log), leaving the store as it
was. -/
def updatePrevBar (db : List MBar) (env : PollEnv) : List MBar :=
  match env.venuePrev with
  | none => db
  | some pb =>
    if env.prevOk && env.instOk && env.tfOk then
      if db.any (fun x => x.time == pb.time) then
        db.map (fun x => if x.time == pb.time then pb else x)
      else db
    else db

/-- `_convert_mt5_bar_to_price_bar` (lines 391-428): returns `None` when id
lookup or field conversion raises (the exception is caught inside). -/
def convertBar (env : PollEnv) (b : MBar) : Option MBar :=
  if env.instOk && env.tfOk && env.convertOk then some b else none

/-- `_store_new_bar` (lines 252-347).  `Except.error db` models the re-raised
exception (line 347), carrying the store content it leaves behind: on a
commit failure the rollback discards the upsert; on a post-commit lookup
failure the committed upsert persists.  On success it returns the new store
and the listeners notified (all of them — per-listener exceptions are
swallowed by the notify loop). -/
def storeNewBar (db : List MBar) (b : MBar) (listeners : List Nat) (env : PollEnv) :
    Except (List MBar) (List MBar × List Nat) :=
  if env.commitOk then
    if env.postOk then
      Except.ok (upsertBar db b, if env.instOk && env.tfOk then listeners else [])
    else Except.error (upsertBar db b)
  else Except.error db

/-- One poll of one pair (`_sync_price_data` body, lines 213-244): fetch the
most recent venue bar; if strictly newer than the cursor, finalize the
previous bar, convert, store, advance the cursor; every exception of the
unit is caught by the per-pair handler (lines 245-250), which leaves the
cursor unchanged.  Returns the new state and the listeners notified. -/
def pollStep (st : SyncSt) (listeners : List Nat) (env : PollEnv) : SyncSt × List Nat :=
  match env.venueLatest with
  | none => (st, [])
  | some lb =>
    if lb.time > st.cursor then
      match convertBar env lb with
      | some pb =>
        match storeNewBar (updatePrevBar st.db env) pb listeners env with
        | Except.ok (db2, notified) => ({ db := db2, cursor := lb.time }, notified)
        | Except.error db2 => ({ db := db2, cursor := st.cursor }, [])
      | none => ({ db := updatePrevBar st.db env, cursor := st.cursor }, [])
    else (st, [])

/-- A sequence of polls of the same pair, threading the state. -/
def runPolls (listeners : List Nat) : SyncSt → List PollEnv → SyncSt
  | st, [] => st
  | st, e :: es => runPolls listeners (pollStep st listeners e).1 es

/-- A concrete venue bar for witnesses. -/
def exampleBar : MBar :=
  { time := 5, «open» := 1, high := 2, low := 1, close := 2, volume := 10, spread := 1 }

/-- A fully successful poll environment delivering `exampleBar`. -/
def examplePollEnv : PollEnv :=
  { venueLatest := some exampleBar, venuePrev := none,
    prevOk := true, instOk := true, tfOk := true,
    convertOk := true, commitOk := true, postOk := true }

/-- Empty store with cursor 0 (before `exampleBar`). -/
def exampleSyncSt : SyncSt := { db := [], cursor := 0 }

/-- Empty store with cursor 10 (already past `exampleBar`). -/
def exampleSyncStLate : SyncSt := { db := [], cursor := 10 }

/-! ## Trade manager (`trade/trade_manager.py`) and signal path

`_execute_buy`/`_execute_sell`/`_close_positions` are modelled as functions
from the venue environment, the position book and the signal to
`(returned bool, new book, orders sent to the venue)`.  `TMEnv` carries the
venue's answers for the calls one signal can make. -/

/-- A trading signal (`strategies/base_strategy.Signal`); the direction is
kept as the raw string the code compares against (`"BUY"`, `"SELL"`,
`"CLOSE"`, or anything else). -/
structure Signal where
  symbol : String
  direction : String
  stop_loss : ℚ
  take_profit : ℚ
deriving DecidableEq, Repr

/-- An order request handed to `mt5.order_send` (entry at lines 204-217 /
310-323, close at lines 383-395; a close request carries the ticket in its
`position` field and no stop levels). -/
structure OrderReq where
  symbol : String
  side : Side
  volume : ℚ
  price : ℚ
  sl : ℚ
  tp : ℚ
  position : Option Nat
deriving DecidableEq, Repr

/-- A stop-modification request (`TRADE_ACTION_SLTP`, lines 486-492). -/
structure ModifyReq where
  ticket : Nat
  symbol : String
  sl : ℚ
  tp : ℚ
deriving DecidableEq, Repr

/-- Venue environment for one trade-manager operation: connection liveness,
`mt5.account_info()`, `mt5.symbol_info(symbol)`, whether an entry
`order_send` returns `TRADE_RETCODE_DONE`, which tickets' close or
stop-modify orders get `retcode != DONE`, for which tickets `order_send`
returns `None` outright (so that the following `result.retcode` access
raises, e.g. lines 406 and 498), and the venue's position list for
`mt5.positions_get()`. -/
structure TMEnv where
  connOk : Bool
  accountInfo : Option AccountInfo
  symbolInfoFor : String → Option SymbolInfo
  orderOk : Bool
  closeFailTickets : List Nat
  orderSendNoneTickets : List Nat
  venuePositions : Option (List Position)

/-- `_sync_positions` (lines 66-104): the book is cleared and rebuilt from
`mt5.positions_get()`; a `None` answer leaves an empty book.  The old book
is not an input: replacement is wholesale, never a merge. -/
def syncPositions (env : TMEnv) : List Position :=
  match env.venuePositions with
  | none => []
  | some ps => ps

/-- `_execute_buy` (lines 140-244): refuse when an open BUY for the symbol
is tracked; fail without an order when `account_info` or `symbol_info` is
unavailable; otherwise size the order and send it.  On `retcode != DONE`
the function returns `False` without touching the book; only on success is
`_sync_positions` called (line 238). -/
def executeBuy (riskPercent : ℚ) (env : TMEnv) (book : List Position) (sig : Signal) :
    Bool × List Position × List OrderReq :=
  if (positionsFor sig.symbol book).any (fun p => p.side == Side.buy) then
    (false, book, [])
  else
    match env.accountInfo with
    | none => (false, book, [])
    | some acct =>
      match env.symbolInfoFor sig.symbol with
      | none => (false, book, [])
      | some si =>
        let req : OrderReq :=
          { symbol := sig.symbol, side := Side.buy,
            volume := computeVolumeLots acct.balance riskPercent si.ask sig.stop_loss si,
            price := si.ask, sl := sig.stop_loss, tp := sig.take_profit, position := none }
        if env.orderOk then (true, syncPositions env, [req])
        else (false, book, [req])

/-- `_execute_sell` (lines 246-350), mirror of `executeBuy` at the bid. -/
def executeSell (riskPercent : ℚ) (env : TMEnv) (book : List Position) (sig : Signal) :
    Bool × List Position × List OrderReq :=
  if (positionsFor sig.symbol book).any (fun p => p.side == Side.sell) then
    (false, book, [])
  else
    match env.accountInfo with
    | none => (false, book, [])
    | some acct =>
      match env.symbolInfoFor sig.symbol with
      | none => (false, book, [])
      | some si =>
        let req : OrderReq :=
          { symbol := sig.symbol, side := Side.sell,
            volume := computeVolumeLots acct.balance riskPercent si.bid sig.stop_loss si,
            price := si.bid, sl := sig.stop_loss, tp := sig.take_profit, position := none }
        if env.orderOk then (true, syncPositions env, [req])
        else (false, book, [req])

/-- Prefix of a loop's items up to and including the first one whose venue
call raises: the items a loop body processed before an exception aborted
the rest of the pass. -/
def sentPrefixBy {α : Type} (fails : α → Bool) : List α → List α
  | [] => []
  | x :: rest => if fails x then [x] else x :: sentPrefixBy fails rest

/-- `_close_positions` (lines 352-422): with nothing tracked for the symbol
it returns `True` immediately (lines 364-366).  Otherwise one close order
per tracked position is sent (an unavailable `symbol_info` raises before
the first order, caught by the outer handler, line 420).  When some
`order_send` returns `None`, the `result.retcode` access at line 406 raises
for that order: earlier orders stay sent, the outer handler returns `False`,
and the `_sync_positions` at line 416 is never reached.  Otherwise the
result is the conjunction of the per-order retcodes (`retcode != DONE` only
logs, line 407) and the book is refreshed (line 416). -/
def closePositions (env : TMEnv) (book : List Position) (sig : Signal) :
    Bool × List Position × List OrderReq :=
  if positionsFor sig.symbol book = [] then (true, book, [])
  else
    match env.symbolInfoFor sig.symbol with
    | none => (false, book, [])
    | some si =>
      if (positionsFor sig.symbol book).any
          (fun p => env.orderSendNoneTickets.contains p.ticket) then
        (false, book,
         (sentPrefixBy (fun p => env.orderSendNoneTickets.contains p.ticket)
             (positionsFor sig.symbol book)).map (fun p =>
           { symbol := sig.symbol,
             side := if p.side == Side.buy then Side.sell else Side.buy,
             volume := p.volume,
             price := if p.side == Side.buy then si.bid else si.ask,
             sl := 0, tp := 0, position := some p.ticket }))
      else
        ((positionsFor sig.symbol book).all
            (fun p => !(env.closeFailTickets.contains p.ticket)),
         syncPositions env,
         (positionsFor sig.symbol book).map (fun p =>
           { symbol := sig.symbol,
             side := if p.side == Side.buy then Side.sell else Side.buy,
             volume := p.volume,
             price := if p.side == Side.buy then si.bid else si.ask,
             sl := 0, tp := 0, position := some p.ticket }))

/-- `process_signal` (lines 106-138): connection gate then dispatch on the
direction string. -/
def processSignal (riskPercent : ℚ) (env : TMEnv) (book : List Position) (sig : Signal) :
    Bool × List Position × List OrderReq :=
  if !env.connOk then (false, book, [])
  else if sig.direction == "BUY" then executeBuy riskPercent env book sig
  else if sig.direction == "SELL" then executeSell riskPercent env book sig
  else if sig.direction == "CLOSE" then closePositions env book sig
  else (false, book, [])

/-- `get_position_count()` with no symbol argument (lines 508-524): total
over all symbols, i.e. the length of the flattened book. -/
def getPositionCount (book : List Position) : Nat := book.length

/-- `check_max_positions` (lines 526-538): `total < max_total_positions`. -/
def checkMaxPositions (maxTotal : Nat) (book : List Position) : Bool :=
  getPositionCount book < maxTotal

/-- `StrategyManager._process_signal` (lines 258-313): BUY/SELL signals are
dropped when `check_max_positions` fails (lines 277-283); otherwise the
signal goes to `TradeManager.process_signal`.  Result: (new book, orders
sent). -/
def smProcessSignal (maxTotal : Nat) (riskPercent : ℚ) (env : TMEnv)
    (book : List Position) (sig : Signal) : List Position × List OrderReq :=
  if (sig.direction == "BUY" || sig.direction == "SELL")
      && !(checkMaxPositions maxTotal book) then
    (book, [])
  else
    ((processSignal riskPercent env book sig).2.1,
     (processSignal riskPercent env book sig).2.2)

/-- One iteration of the `update_trailing_stops` position loop (lines
440-500): skip when the position has no stop (line 442) or `symbol_info` is
unavailable (line 452); otherwise recompute via `newStopLoss` and emit a
modify request only when the stop changed (line 479). -/
def trailingModifyReq (env : TMEnv) (atrMult : ℚ) (p : Position) : Option ModifyReq :=
  if p.sl = 0 then none
  else
    match env.symbolInfoFor p.symbol with
    | none => none
    | some si =>
      let nsl := newStopLoss p.side p.current_price p.sl (trailingDistance si.point atrMult)
      if nsl ≠ p.sl then
        some { ticket := p.ticket, symbol := p.symbol, sl := nsl, tp := p.tp }
      else none

/-- `update_trailing_stops` (lines 424-506): empty book or disabled trailing
return immediately (lines 428-436) with no refresh; otherwise the position
loop runs (`trailingModifyReq` per position).  When some modify
`order_send` (line 495) returns `None`, the `result.retcode` access at line
498 raises: the pass aborts into the handler at lines 505-506 and the
`_sync_positions` at line 503 never runs, leaving the book untouched
(requests before the failing one were already sent).  Only a pass whose
venue calls all returned a result object ends with the refresh at
line 503 (`retcode != DONE` only logs, line 499). -/
def updateTrailingStops (env : TMEnv) (enabled : Bool) (atrMult : ℚ)
    (book : List Position) : List Position × List ModifyReq :=
  if book = [] then (book, [])
  else if !enabled then (book, [])
  else
    if (book.filterMap (trailingModifyReq env atrMult)).any
        (fun r => env.orderSendNoneTickets.contains r.ticket) then
      (book,
       sentPrefixBy (fun r => env.orderSendNoneTickets.contains r.ticket)
         (book.filterMap (trailingModifyReq env atrMult)))
    else
      (syncPositions env, book.filterMap (trailingModifyReq env atrMult))

/-- A tracked BUY position on EURUSD for witnesses. -/
def examplePosition : Position :=
  { ticket := 7, symbol := "EURUSD", side := Side.buy, volume := 1,
    open_price := 1, current_price := 1, sl := 1, tp := 2 }

/-- A BUY signal on EURUSD for witnesses. -/
def exampleBuySignal : Signal :=
  { symbol := "EURUSD", direction := "BUY", stop_loss := 1, take_profit := 101 / 100 }

/-- A CLOSE signal on EURUSD for witnesses. -/
def exampleCloseSignal : Signal :=
  { symbol := "EURUSD", direction := "CLOSE", stop_loss := 0, take_profit := 0 }

/-- A healthy venue environment whose entry `order_send` is rejected
(`retcode != TRADE_RETCODE_DONE`) and which reports one open position. -/
def exampleTMEnvFailOrder : TMEnv :=
  { connOk := true, accountInfo := some { balance := 10000, equity := 10000 },
    symbolInfoFor := fun _ => some exampleSymbolInfo,
    orderOk := false, closeFailTickets := [], orderSendNoneTickets := [],
    venuePositions := some [examplePosition] }

end Engine

namespace Engine

/-! ## Claim C1: trailing stops never loosen -/

/-- C1. For every open position with a non-zero stop processed by
`update_trailing_stops`, the stop moves only in the favorable direction: a
BUY position's new stop is `≥` the old stop and a SELL position's new stop
is `≤` the old stop, for all prices, stops, and trailing distances (even
negative ones). -/
theorem trailingStep_never_loosens (p : Position) (d : ℚ) :
    (p.side = Side.buy → p.sl ≤ trailingStep p d) ∧
    (p.side = Side.sell → trailingStep p d ≤ p.sl) := by
  constructor
  · intro hside
    unfold trailingStep newStopLoss
    rw [hside]
    by_cases h0 : p.sl = 0
    · simp [h0]
    · simp only [if_neg h0]
      by_cases hc : p.current_price > p.sl + d
      · simp only [if_pos hc]
        linarith
      · simp [hc]
  · intro hside
    unfold trailingStep newStopLoss
    rw [hside]
    by_cases h0 : p.sl = 0
    · simp [h0]
    · simp only [if_neg h0]
      by_cases hc : p.current_price < p.sl - d
      · simp only [if_pos hc]
        linarith
      · simp [hc]

/-- Witness for C1 at a concrete BUY position (price 110, stop 100,
distance 5: the stop ratchets up to 105 ≥ 100). -/
theorem trailingStep_never_loosens_witness :
    let p : Position :=
      { ticket := 1, symbol := "EURUSD", side := Side.buy, volume := 1,
        open_price := 95, current_price := 110, sl := 100, tp := 120 }
    (100 : ℚ) ≤ trailingStep p 5 :=
  (trailingStep_never_loosens _ 5).1 rfl

/-! ## Claim C6: crossover tie-break -/

/-- Counterexample to C6 as stated: the claim says that when the MACD line
equals the signal line on either of the last two samples, no cross is
detected.  But `macd_crosses_above` uses a non-strict `<=` on the previous
sample: with `macd[-2] = signal[-2] = 0` and `macd[-1] = 1 > 0 = signal[-1]`
the values are equal on the previous sample and a cross-above is still
detected. -/
theorem macdCross_equal_prev_counterexample :
    (0 : ℚ) = (0 : ℚ) ∧ macdCrossesAbove 0 0 1 0 = true := by
  constructor
  · rfl
  · rfl

/-- C6 amended: crossover detection is strict only on the current sample:
whenever the MACD line equals the signal line on the most recent sample,
neither a cross-above nor a cross-below is detected (equality on the
previous sample, by contrast, can count toward a cross, since the previous
sample is compared non-strictly). -/
theorem macdCross_equal_current_no_cross (macdPrev sigPrev m s : ℚ) (h : m = s) :
    macdCrossesAbove macdPrev sigPrev m s = false ∧
    macdCrossesBelow macdPrev sigPrev m s = false := by
  subst h
  unfold macdCrossesAbove macdCrossesBelow
  constructor
  · simp
  · simp

/-- Witness for the amended C6 at `macd[-2]=3, signal[-2]=7, macd[-1]=signal[-1]=2`. -/
theorem macdCross_equal_current_no_cross_witness :
    macdCrossesAbove 3 7 2 2 = false ∧ macdCrossesBelow 3 7 2 2 = false :=
  macdCross_equal_current_no_cross 3 7 2 2 rfl

/-! ## Claim C4: position sizing -/

/-- Counterexample to C4 as stated: the claim says `_execute_buy` computes
`risk_amount = account_equity × risk_percent/100`, but line 166 reads
`account_info.balance`.  On an account with balance 10000 and equity 5000
(open positions carrying unrealized loss) and `risk_percent = 1`, the code
computes 100 while the claimed equity-based formula gives 50. -/
theorem riskAmount_balance_not_equity_counterexample :
    riskAmountCode { balance := 10000, equity := 5000 } 1 = 100 ∧
    riskAmountSpecEquity { balance := 10000, equity := 5000 } 1 = 50 ∧
    riskAmountCode { balance := 10000, equity := 5000 } 1 ≠
      riskAmountSpecEquity { balance := 10000, equity := 5000 } 1 := by
  refine ⟨by norm_num [riskAmountCode, riskAmount], by norm_num [riskAmountSpecEquity], ?_⟩
  norm_num [riskAmountCode, riskAmountSpecEquity, riskAmount]

/-- C4 amended: position sizing in `_execute_buy` computes
`risk_amount = account_balance × risk_percent/100` (balance, not equity) and
`volume = (risk_amount / stop_distance_in_price_steps) / value_per_step`,
rounded to the venue lot step and clamped to `[volume_min, volume_max]`.
Concretely, with balance 10000, risk 1%, a stop 50 price steps away and
value-per-step 1: `risk_amount = 100`, the pre-rounding volume is
`100/50 = 2`, and the final rounded/clamped volume is 2.  Clamping never
produces a volume below `volume_min` or above `volume_max` whenever
`volume_min ≤ volume_max`. -/
theorem computeVolumeLots_spec :
    (∀ (balance riskPercent price stop_loss : ℚ) (si : SymbolInfo),
      si.volume_min ≤ si.volume_max →
        si.volume_min ≤ computeVolumeLots balance riskPercent price stop_loss si ∧
        computeVolumeLots balance riskPercent price stop_loss si ≤ si.volume_max) ∧
    riskAmount 10000 1 = 100 ∧
    preRoundVolume 10000 1 (201 / 200) 1 exampleSymbolInfo = 2 ∧
    computeVolumeLots 10000 1 (201 / 200) 1 exampleSymbolInfo = 2 := by
  refine ⟨fun balance riskPercent price stop_loss si h => ?_, ?_, ?_, ?_⟩
  · exact ⟨le_max_left _ _, max_le h (min_le_left _ _)⟩
  · norm_num [riskAmount]
  · norm_num [preRoundVolume, riskAmount, exampleSymbolInfo, abs]
  · norm_num [computeVolumeLots, roundedVolume, preRoundVolume, riskAmount,
      exampleSymbolInfo, pyRound, abs]

/-- Witness for the amended C4: the clamp bound instantiated at the worked
example's inputs (volume_min 0.01 ≤ volume_max 100). -/
theorem computeVolumeLots_spec_witness :
    (1 : ℚ) / 100 ≤ computeVolumeLots 10000 1 (201 / 200) 1 exampleSymbolInfo ∧
    computeVolumeLots 10000 1 (201 / 200) 1 exampleSymbolInfo ≤ 100 :=
  computeVolumeLots_spec.1 10000 1 (201 / 200) 1 exampleSymbolInfo (by norm_num [exampleSymbolInfo])

/-! ## Claim C5: no flapping -/

/-- A call that emits no signal leaves `last_signal_type` unchanged. -/
theorem evaluateStep_none_state :
    ∀ (cfg : EvalConfig) (st : LastSig) (i : EvalInput),
      (evaluateStep cfg st i).1 = none → (evaluateStep cfg st i).2 = st := by
  intro cfg st i
  unfold evaluateStep
  split_ifs <;> simp

/-- Emission constraints: a BUY can only fire from a non-BUY state and moves
the state to BUY; symmetrically for SELL; CLOSE resets the state. -/
theorem evaluateStep_emit_constraints :
    ∀ (cfg : EvalConfig) (st : LastSig) (i : EvalInput),
      ((evaluateStep cfg st i).1 = some SigDir.buySig →
        st ≠ LastSig.buy ∧ (evaluateStep cfg st i).2 = LastSig.buy) ∧
      ((evaluateStep cfg st i).1 = some SigDir.sellSig →
        st ≠ LastSig.sell ∧ (evaluateStep cfg st i).2 = LastSig.sell) ∧
      ((evaluateStep cfg st i).1 = some SigDir.closeSig →
        (evaluateStep cfg st i).2 = LastSig.noSignal) := by
  intro cfg st i
  unfold evaluateStep
  split_ifs <;> refine ⟨?_, ?_, ?_⟩ <;> intro h <;> simp_all

/-- Strengthened invariant for the induction: from any state the emitted
trace has no adjacent repeat of a direction, and its first signal cannot
repeat the direction recorded in the current state. -/
theorem runSignals_chain_aux :
    ∀ (is : List EvalInput) (cfg : EvalConfig) (st : LastSig),
      List.Chain' flapOk (runSignals cfg st is) ∧
      (∀ d, (runSignals cfg st is).head? = some d →
        (st = LastSig.buy → d ≠ SigDir.buySig) ∧
        (st = LastSig.sell → d ≠ SigDir.sellSig)) := by
  intro is
  induction is with
  | nil =>
    intro cfg st
    refine ⟨by simp [runSignals], ?_⟩
    intro d hd
    simp [runSignals] at hd
  | cons i rest ih =>
    intro cfg st
    rcases hstep : evaluateStep cfg st i with ⟨o, st'⟩
    cases o with
    | none =>
      have hfst : (evaluateStep cfg st i).1 = none := by rw [hstep]
      have hsnd : (evaluateStep cfg st i).2 = st := evaluateStep_none_state cfg st i hfst
      have hst' : st' = st := by rw [hstep] at hsnd; exact hsnd
      have hrun : runSignals cfg st (i :: rest) = runSignals cfg st rest := by
        rw [runSignals, hstep, hst']
      rw [hrun]
      exact ih cfg st
    | some d =>
      have hfst : (evaluateStep cfg st i).1 = some d := by rw [hstep]
      have hsnd : (evaluateStep cfg st i).2 = st' := by rw [hstep]
      have hrun : runSignals cfg st (i :: rest) = d :: runSignals cfg st' rest := by
        rw [runSignals, hstep]
      rw [hrun]
      have hcons := evaluateStep_emit_constraints cfg st i
      refine ⟨List.chain'_cons'.2 ⟨?_, (ih cfg st').1⟩, ?_⟩
      · intro b hb
        have hhead := (ih cfg st').2 b (by simpa using hb)
        cases d with
        | buySig =>
          have h1 := hcons.1 hfst
          have hstate : st' = LastSig.buy := by rw [hsnd] at h1; exact h1.2
          intro heq
          exact absurd heq.symm (hhead.1 hstate)
        | sellSig =>
          have h1 := hcons.2.1 hfst
          have hstate : st' = LastSig.sell := by rw [hsnd] at h1; exact h1.2
          intro heq
          exact absurd heq.symm (hhead.2 hstate)
        | closeSig =>
          intro _
          rfl
      · intro e he
        have hde : d = e := by simpa using he
        subst hde
        constructor
        · intro hbuy hd
          subst hd
          exact (hcons.1 hfst).1 hbuy
        · intro hsell hd
          subst hd
          exact (hcons.2.1 hfst).1 hsell

/-- C5. Over every sequence of `evaluate` calls on one `ScalpingStrategy`
instance (which starts with `last_signal_type = None`), the emitted signal
trace never contains two consecutive signals of the same direction (two
BUYs or two SELLs) without an intervening opposite or CLOSE signal: adjacent
equal signals can only be CLOSE. -/
theorem scalping_no_flapping (cfg : EvalConfig) (is : List EvalInput) :
    List.Chain' flapOk (runSignals cfg LastSig.noSignal is) :=
  (runSignals_chain_aux is cfg LastSig.noSignal).1

/-! ## Claims C7, C8, C2: sync cursor and poll atomicity -/

/-- One poll never lowers the cursor. -/
theorem cursor_le_pollStep (st : SyncSt) (ls : List Nat) (env : PollEnv) :
    st.cursor ≤ (pollStep st ls env).1.cursor := by
  unfold pollStep
  cases hv : env.venueLatest with
  | none => exact le_refl _
  | some lb =>
    dsimp only
    by_cases hc : lb.time > st.cursor
    · simp only [if_pos hc]
      cases hcv : convertBar env lb with
      | none => exact le_refl _
      | some pb =>
        dsimp only
        cases hs : storeNewBar (updatePrevBar st.db env) pb ls env with
        | ok r =>
          obtain ⟨db2, notified⟩ := r
          exact le_of_lt hc
        | error db2 => exact le_refl _
    · simp only [if_neg hc]
      exact le_refl _

/-- C7. The stored sync cursor for one `(instrument, timeframe)` pair is
monotonically non-decreasing: a single poll never replaces it with an
earlier time, and over any sequence of polls the final cursor is at least
the initial one. -/
theorem syncCursor_monotone :
    (∀ (st : SyncSt) (ls : List Nat) (env : PollEnv),
      st.cursor ≤ (pollStep st ls env).1.cursor) ∧
    (∀ (ls : List Nat) (envs : List PollEnv) (st : SyncSt),
      st.cursor ≤ (runPolls ls st envs).cursor) := by
  refine ⟨cursor_le_pollStep, ?_⟩
  intro ls envs
  induction envs with
  | nil => intro st; exact le_refl _
  | cons e es ih =>
    intro st
    exact le_trans (cursor_le_pollStep st ls e) (ih (pollStep st ls e).1)

/-- C8. A poll in which the venue's most recent bar is not strictly newer
than the stored cursor is a no-op: stored bars, cursor and notifications are
all unchanged. -/
theorem pollStep_noop_when_not_newer (st : SyncSt) (ls : List Nat) (env : PollEnv)
    (lb : MBar) (hv : env.venueLatest = some lb) (h : lb.time ≤ st.cursor) :
    pollStep st ls env = (st, []) := by
  unfold pollStep
  rw [hv]
  simp only [if_neg (not_lt.2 h)]

/-- Witness for C8: a poll that re-delivers a bar at time 5 against a cursor
already at 10 changes nothing and notifies nobody. -/
theorem pollStep_noop_when_not_newer_witness :
    pollStep exampleSyncStLate [1, 2] examplePollEnv = (exampleSyncStLate, []) :=
  pollStep_noop_when_not_newer exampleSyncStLate [1, 2] examplePollEnv exampleBar rfl
    (by decide)

/-- The upserted bar is always present in the resulting store. -/
theorem mem_upsertBar (db : List MBar) (b : MBar) : b ∈ upsertBar db b := by
  unfold upsertBar
  split_ifs with h
  · rcases List.any_eq_true.1 h with ⟨x, hx, hxt⟩
    exact List.mem_map.2 ⟨x, hx, by simp [hxt]⟩
  · simp

/-- Inversion of a successful conversion. -/
theorem convertBar_eq_some {env : PollEnv} {b pb : MBar}
    (h : convertBar env b = some pb) :
    pb = b ∧ env.instOk = true ∧ env.tfOk = true ∧ env.convertOk = true := by
  unfold convertBar at h
  split_ifs at h with hc
  · simp only [Option.some.injEq] at h
    simp only [Bool.and_eq_true] at hc
    exact ⟨h.symm, hc.1.1, hc.1.2, hc.2⟩

/-- C2. All-or-nothing per poll: whenever the cursor moves, the venue
delivered a strictly newer bar, that bar is present in the store after the
poll, and every registered listener was notified; and whenever any listener
was notified, the cursor moved.  In particular the cursor is never advanced
without the bar having been stored, and listeners are never skipped when the
bar was stored and the cursor advanced. -/
theorem pollStep_atomic (st : SyncSt) (ls : List Nat) (env : PollEnv) :
    ((pollStep st ls env).1.cursor ≠ st.cursor →
      ∃ lb, env.venueLatest = some lb ∧ st.cursor < lb.time ∧
        lb ∈ (pollStep st ls env).1.db ∧ (pollStep st ls env).2 = ls) ∧
    ((pollStep st ls env).2 ≠ [] → (pollStep st ls env).1.cursor ≠ st.cursor) := by
  unfold pollStep
  cases hv : env.venueLatest with
  | none => exact ⟨fun h => absurd rfl h, fun h => absurd rfl h⟩
  | some lb =>
    dsimp only
    by_cases hc : lb.time > st.cursor
    · simp only [if_pos hc]
      cases hcv : convertBar env lb with
      | none => exact ⟨fun h => absurd rfl h, fun h => absurd rfl h⟩
      | some pb =>
        dsimp only
        obtain ⟨hpb, hinst, htf, _⟩ := convertBar_eq_some hcv
        subst hpb
        cases hs : storeNewBar (updatePrevBar st.db env) pb ls env with
        | error db2 => exact ⟨fun h => absurd rfl h, fun h => absurd rfl h⟩
        | ok r =>
          obtain ⟨db2, notified⟩ := r
          dsimp only
          have hstore : db2 = upsertBar (updatePrevBar st.db env) pb ∧ notified = ls := by
            unfold storeNewBar at hs
            rw [hinst, htf] at hs
            split_ifs at hs with h1 h2 h3
            · simp only [Except.ok.injEq, Prod.mk.injEq] at hs
              exact ⟨hs.1.symm, hs.2.symm⟩
            all_goals simp_all
          refine ⟨fun _ => ⟨pb, rfl, hc, ?_, hstore.2⟩, fun _ => ne_of_gt hc⟩
          simp only [hstore.1]
          exact mem_upsertBar _ _
    · simp only [if_neg hc]
      exact ⟨fun h => absurd rfl h, fun h => absurd rfl h⟩

/-- Witness for C2: a fully successful poll of a strictly newer bar stores
it, advances the cursor, and notifies both registered listeners. -/
theorem pollStep_atomic_witness :
    ∃ lb, examplePollEnv.venueLatest = some lb ∧ exampleSyncSt.cursor < lb.time ∧
      lb ∈ (pollStep exampleSyncSt [1, 2] examplePollEnv).1.db ∧
      (pollStep exampleSyncSt [1, 2] examplePollEnv).2 = [1, 2] :=
  (pollStep_atomic exampleSyncSt [1, 2] examplePollEnv).1 (by decide)

/-! ## Claim C3: entry refusal -/

/-- C3. A BUY or SELL signal is refused with no order sent and an unchanged
position book whenever a same-direction open position is already tracked for
that instrument, or the portfolio-wide open-position count has reached
`max_total_positions` (the latter gate lives in
`StrategyManager._process_signal`, the former in `_execute_buy` /
`_execute_sell`). -/
theorem entry_refusal_spec (maxTotal : Nat) (riskPercent : ℚ) (env : TMEnv)
    (book : List Position) (sig : Signal)
    (hdir : sig.direction = "BUY" ∨ sig.direction = "SELL")
    (href : (sig.direction = "BUY" ∧
              (positionsFor sig.symbol book).any (fun p => p.side == Side.buy) = true) ∨
            (sig.direction = "SELL" ∧
              (positionsFor sig.symbol book).any (fun p => p.side == Side.sell) = true) ∨
            maxTotal ≤ book.length) :
    smProcessSignal maxTotal riskPercent env book sig = (book, []) := by
  unfold smProcessSignal
  rcases href with ⟨hb, hany⟩ | ⟨hsl, hany⟩ | hmax
  · split_ifs with hgate
    · rfl
    · unfold processSignal
      cases hconn : env.connOk with
      | false => simp
      | true =>
        rw [hb]
        simp [hconn, executeBuy, hany]
  · split_ifs with hgate
    · rfl
    · unfold processSignal
      cases hconn : env.connOk with
      | false => simp
      | true =>
        rw [hsl]
        simp [hconn, executeSell, hany]
  · have hm : checkMaxPositions maxTotal book = false := by
      simp [checkMaxPositions, getPositionCount, Nat.not_lt.2 hmax]
    rcases hdir with hb | hsl
    · rw [hb]
      simp [hm]
    · rw [hsl]
      simp [hm]

/-- Witness for C3: a BUY signal for EURUSD against a book already holding
an open EURUSD BUY position (cap 5 not reached) is refused unchanged. -/
theorem entry_refusal_spec_witness :
    smProcessSignal 5 1 exampleTMEnvFailOrder [examplePosition] exampleBuySignal =
      ([examplePosition], []) :=
  entry_refusal_spec 5 1 exampleTMEnvFailOrder [examplePosition] exampleBuySignal
    (Or.inl rfl) (Or.inl ⟨rfl, by decide⟩)

/-! ## Claim C9: position-book refresh -/

/-- Counterexample to C9 as stated: the claim says the book is refreshed
from venue truth after every order placement attempt, successful or failed,
and after every trailing-stop pass.  But on `retcode != TRADE_RETCODE_DONE`
`_execute_buy` returns at line 231 without calling `_sync_positions`: here
an order is sent and rejected while the venue reports one open position,
yet the book stays empty instead of being replaced by venue truth; likewise
a trailing-stop pass over an empty book returns at line 429 without any
refresh. -/
theorem book_refresh_counterexample :
    (executeBuy 1 exampleTMEnvFailOrder [] exampleBuySignal).2.2 ≠ [] ∧
    (executeBuy 1 exampleTMEnvFailOrder [] exampleBuySignal).2.1 = [] ∧
    syncPositions exampleTMEnvFailOrder = [examplePosition] ∧
    (executeBuy 1 exampleTMEnvFailOrder [] exampleBuySignal).2.1 ≠
      syncPositions exampleTMEnvFailOrder ∧
    (updateTrailingStops exampleTMEnvFailOrder true 1 []).1 ≠
      syncPositions exampleTMEnvFailOrder := by
  refine ⟨by decide, rfl, rfl, by decide, by decide⟩

/-- C9 amended: the book is replaced wholesale from venue truth (cleared and
rebuilt by `_sync_positions`, never merged) after every *successful* order
placement, after every close pass that had positions to close, a usable
`symbol_info`, and whose close `order_send` calls all returned a result
object, and after every trailing-stop pass that processed positions (book
non-empty, trailing enabled) and whose stop-modify `order_send` calls all
returned a result object; a failed entry order, an `order_send` returning
`None` mid-pass (which raises at the `retcode` access and aborts the pass
before its `_sync_positions`), and a skipped trailing pass all leave the
book unchanged. -/
theorem book_refresh_spec (riskPercent : ℚ) (env : TMEnv) (book : List Position)
    (sig : Signal) (enabled : Bool) (atrMult : ℚ) :
    ((executeBuy riskPercent env book sig).1 = true →
      (executeBuy riskPercent env book sig).2.1 = syncPositions env) ∧
    ((executeBuy riskPercent env book sig).1 = false →
      (executeBuy riskPercent env book sig).2.1 = book) ∧
    ((executeSell riskPercent env book sig).1 = true →
      (executeSell riskPercent env book sig).2.1 = syncPositions env) ∧
    ((executeSell riskPercent env book sig).1 = false →
      (executeSell riskPercent env book sig).2.1 = book) ∧
    (positionsFor sig.symbol book ≠ [] → ∀ si, env.symbolInfoFor sig.symbol = some si →
      (positionsFor sig.symbol book).any
          (fun p => env.orderSendNoneTickets.contains p.ticket) = false →
      (closePositions env book sig).2.1 = syncPositions env) ∧
    ((positionsFor sig.symbol book).any
        (fun p => env.orderSendNoneTickets.contains p.ticket) = true →
      (closePositions env book sig).2.1 = book) ∧
    (book ≠ [] → enabled = true →
      (book.filterMap (trailingModifyReq env atrMult)).any
          (fun r => env.orderSendNoneTickets.contains r.ticket) = false →
      (updateTrailingStops env enabled atrMult book).1 = syncPositions env) ∧
    ((book.filterMap (trailingModifyReq env atrMult)).any
        (fun r => env.orderSendNoneTickets.contains r.ticket) = true →
      (updateTrailingStops env enabled atrMult book).1 = book) := by
  refine ⟨?_, ?_, ?_, ?_, ?_, ?_, ?_, ?_⟩
  · unfold executeBuy
    cases hacc : env.accountInfo <;> cases hsym : env.symbolInfoFor sig.symbol <;>
      split_ifs <;> simp_all
  · unfold executeBuy
    cases hacc : env.accountInfo <;> cases hsym : env.symbolInfoFor sig.symbol <;>
      split_ifs <;> simp_all
  · unfold executeSell
    cases hacc : env.accountInfo <;> cases hsym : env.symbolInfoFor sig.symbol <;>
      split_ifs <;> simp_all
  · unfold executeSell
    cases hacc : env.accountInfo <;> cases hsym : env.symbolInfoFor sig.symbol <;>
      split_ifs <;> simp_all
  · intro hne si hsi hnone
    unfold closePositions
    rw [if_neg hne, hsi]
    dsimp only
    rw [if_neg (by rw [hnone]; exact Bool.false_ne_true)]
  · intro hsome
    unfold closePositions
    by_cases h1 : positionsFor sig.symbol book = []
    · rw [if_pos h1]
    · rw [if_neg h1]
      cases hsi : env.symbolInfoFor sig.symbol with
      | none => rfl
      | some si =>
        dsimp only
        rw [if_pos hsome]
  · intro hne hen hnone
    subst hen
    unfold updateTrailingStops
    rw [if_neg hne, if_neg (show ¬((!true) = true) by simp),
        if_neg (by rw [hnone]; exact Bool.false_ne_true)]
  · intro hsome
    unfold updateTrailingStops
    by_cases h1 : book = []
    · rw [if_pos h1]
    · rw [if_neg h1]
      cases enabled with
      | false => rw [if_pos (show (!false) = true from rfl)]
      | true =>
        rw [if_neg (show ¬((!true) = true) by simp), if_pos hsome]

/-- Witness for the amended C9: a trailing pass over a one-position book
whose venue calls all return results replaces the book with the venue's
position list. -/
theorem book_refresh_spec_witness :
    (updateTrailingStops exampleTMEnvFailOrder true 1 [examplePosition]).1 =
      syncPositions exampleTMEnvFailOrder :=
  (book_refresh_spec 1 exampleTMEnvFailOrder [examplePosition] exampleBuySignal
      true 1).2.2.2.2.2.2.1 (List.cons_ne_nil _ _) rfl
    (by norm_num [trailingModifyReq, exampleTMEnvFailOrder, examplePosition,
      exampleSymbolInfo, newStopLoss, trailingDistance])

/-! ## Claim C10: CLOSE with nothing to close -/

/-- C10. Processing a CLOSE signal for an instrument with no tracked open
positions succeeds: `process_signal` returns `True`, no order is sent to the
venue, and the position book is unchanged (connection assumed live, since
`process_signal` gates on it first). -/
theorem close_no_positions_spec (riskPercent : ℚ) (env : TMEnv)
    (book : List Position) (sig : Signal)
    (hdir : sig.direction = "CLOSE") (hconn : env.connOk = true)
    (hempty : positionsFor sig.symbol book = []) :
    processSignal riskPercent env book sig = (true, book, []) := by
  unfold processSignal
  rw [hdir, hconn]
  simp only [Bool.not_true, if_false]
  unfold closePositions
  rw [if_pos hempty]
  simp

/-- Witness for C10: a CLOSE for EURUSD against an empty book returns
success, no orders, book unchanged. -/
theorem close_no_positions_spec_witness :
    processSignal 1 exampleTMEnvFailOrder [] exampleCloseSignal = (true, [], []) :=
  close_no_positions_spec 1 exampleTMEnvFailOrder [] exampleCloseSignal rfl rfl rfl

end Engine
